import Mathlib

/-!
# Verification of the memory-game board engine and result store

Shallow embedding of the two program components of the repository:

* the board engine of `frontend/src/App.js` (card list, flip/match state
  machine, scoring, and the request body built on save), and
* the result store of `backend/server.js` (the `POST /api/results`
  validation/insert and the `GET /api/leaderboard` query).

React `useState` state is modelled as an explicit `GameState` record; each
event handler becomes a function `GameState → GameState`.  The two
`setTimeout` callbacks inside `handleCardClick` are modelled as a separate
operation `resolvePending`: while two cards are pending every click is a
no-op (the `flippedCards.length === 2` guard), so no state change can occur
between the click that schedules a callback and the callback firing, and the
values the callback captured (`updatedCards`, `newFlippedCards`,
`newMatchedPairs`, `firstCard.pokemonId`) coincide with the corresponding
fields of the state at firing time; `resolvePending` recomputes them from
the current state.

The SQLite table is modelled as a list of rows plus a next-id counter; JSON
values arriving in a request body are modelled by `JVal` (`null` / string /
number), with an absent field as `none`.
-/

namespace MemoryGame

/-- A card of the board, as built by `initializeGame` in App.js:
`{ id, pokemonId, image, isFlipped, isMatched }`.  The `image` URL is a
deterministic function of `pokemonId` and carries no extra information, so
it is not reproduced in the model. -/
structure Card where
  id : Nat
  pokemonId : Nat
  isFlipped : Bool
  isMatched : Bool
deriving DecidableEq, Repr

/-- The React component state of App.js that the game logic touches:
`cards`, `flippedCards`, `matchedPairs`, `score`, `tries`, `gameOver`,
`showNameInput`. -/
structure GameState where
  cards : List Card
  flippedCards : List Nat
  matchedPairs : List Nat
  score : Nat
  tries : Nat
  gameOver : Bool
  showNameInput : Bool
deriving DecidableEq, Repr

/-- `const POKEMON_IDS = [1, 4, 7, 25, 39, 52, 54, 133]` (App.js line 9). -/
def POKEMON_IDS : List Nat := [1, 4, 7, 25, 39, 52, 54, 133]

/-- `const pokemonPairs = [...POKEMON_IDS, ...POKEMON_IDS]` (App.js line 31). -/
def pokemonPairs : List Nat := POKEMON_IDS ++ POKEMON_IDS

/-- The card object built for index `i` and Pokemon id `p` by the `.map`
in `initializeGame` (App.js lines 35-41), before the shuffle. -/
def mkCard (i p : Nat) : Card :=
  { id := i, pokemonId := p, isFlipped := false, isMatched := false }

/-- The card list after the `.map((pokemon, index) => ...)` of
`initializeGame`, in original order: the shuffle has not yet been applied. -/
def baseCards : List Card :=
  (List.range pokemonPairs.length).zipWith mkCard pokemonPairs

/-- Applying a permutation of positions to a card list.  This models the
`.sort(() => Math.random() - 0.5)` call of `initializeGame` (App.js
line 42): whatever order the random comparator produces, the result is the
input list with its elements rearranged, i.e. `shuffleBy perm` for some
`perm` that is a permutation of `List.range l.length`.  The permutation is
a parameter of the model (the source of randomness). -/
def shuffleBy (perm : List Nat) (l : List Card) : List Card :=
  perm.map (fun i => l.getD i (mkCard 0 0))

/-- `initializeGame` (App.js lines 29-51): build the 16 cards, shuffle,
and reset every counter and flag. -/
def initializeGame (perm : List Nat) : GameState :=
  { cards := shuffleBy perm baseCards
    flippedCards := []
    matchedPairs := []
    score := 0
    tries := 0
    gameOver := false
    showNameInput := false }

/-- `cards.find(c => c.id === cardId)` (App.js line 63). -/
def findCard (cards : List Card) (cardId : Nat) : Option Card :=
  cards.find? (fun c => c.id == cardId)

/-- `handleCardClick` (App.js lines 62-126), up to and excluding the two
`setTimeout` callbacks (those are `resolvePending` below).  When
`cards.find` yields no card the original code would throw on the property
access at line 91 after the `setTries` call; the model returns the state
with the updates that were already issued (`cards`, `flippedCards`,
`tries`) — this branch is unreachable for clicks on rendered cards. -/
def handleCardClick (s : GameState) (cardId : Nat) : GameState :=
  match findCard s.cards cardId with
  | none => s
  | some card =>
    if card.isFlipped || card.isMatched || s.flippedCards.length == 2
        || s.matchedPairs.contains card.pokemonId then
      s
    else
      let newFlippedCards := s.flippedCards ++ [cardId]
      let updatedCards :=
        s.cards.map (fun c => if c.id == cardId then { c with isFlipped := true } else c)
      if newFlippedCards.length == 2 then
        match newFlippedCards with
        | firstCardId :: secondCardId :: _ =>
          match findCard s.cards firstCardId, findCard updatedCards secondCardId with
          | some firstCard, some secondCard =>
            if firstCard.pokemonId == secondCard.pokemonId then
              { s with
                cards := updatedCards
                flippedCards := newFlippedCards
                tries := s.tries + 1
                matchedPairs := s.matchedPairs ++ [firstCard.pokemonId]
                score := s.score + 10 }
            else
              { s with
                cards := updatedCards
                flippedCards := newFlippedCards
                tries := s.tries + 1 }
          | _, _ =>
            { s with
              cards := updatedCards
              flippedCards := newFlippedCards
              tries := s.tries + 1 }
        | _ => { s with cards := updatedCards, flippedCards := newFlippedCards }
      else
        { s with cards := updatedCards, flippedCards := newFlippedCards }

/-- The deferred `setTimeout` callbacks of `handleCardClick` (App.js lines
98-112 for a match, 115-123 for a mismatch), recomputed from the current
state: a callback is pending exactly when `flippedCards` holds two ids, and
between scheduling and firing no click can alter the state (the
`flippedCards.length === 2` guard makes every click a no-op), so the
captured `updatedCards` / `newFlippedCards` / `newMatchedPairs` /
`firstCard.pokemonId` equal the current `cards` / `flippedCards` /
`matchedPairs` / looked-up pokemonId. -/
def resolvePending (s : GameState) : GameState :=
  match s.flippedCards with
  | [firstCardId, secondCardId] =>
    match findCard s.cards firstCardId, findCard s.cards secondCardId with
    | some firstCard, some secondCard =>
      if firstCard.pokemonId == secondCard.pokemonId then
        let over := s.matchedPairs.length == POKEMON_IDS.length
        { s with
          cards := s.cards.map (fun c =>
            if c.pokemonId == firstCard.pokemonId then
              { c with isMatched := true, isFlipped := true }
            else c)
          flippedCards := []
          gameOver := over || s.gameOver
          showNameInput := over || s.showNameInput }
      else
        { s with
          cards := s.cards.map (fun c =>
            if s.flippedCards.contains c.id then { c with isFlipped := false } else c)
          flippedCards := [] }
    | _, _ => s
  | _ => s

/-- The user-visible operations that mutate a running game: a click on a
card, and the firing of a scheduled resolution callback. -/
inductive GameOp where
  | click (cardId : Nat)
  | resolve
deriving DecidableEq, Repr

def applyOp (s : GameState) : GameOp → GameState
  | .click cardId => handleCardClick s cardId
  | .resolve => resolvePending s

def runOps (s : GameState) (ops : List GameOp) : GameState :=
  ops.foldl applyOp s

/-- The spec's per-card state (`hidden` / `revealed` / `matched`), read off
the two booleans of a card: `matched` is `isMatched`, `revealed` is flipped
but not matched, `hidden` is neither. -/
inductive CardState where
  | hidden
  | revealed
  | matched
deriving DecidableEq, Repr

def Card.state (c : Card) : CardState :=
  if c.isMatched then .matched else if c.isFlipped then .revealed else .hidden

/-- The request body of `saveResult` (App.js lines 128-148). -/
structure ResultBody where
  player_name : String
  score : Nat
  tries : Nat
  «matches» : Nat
deriving DecidableEq, Repr

/-- `!playerName.trim()` (App.js line 129): the name, with leading and
trailing whitespace removed, is the empty string — equivalently, every
character of the name is whitespace.  (Stated over the character list
because `String.trim` itself is defined by well-founded recursion.) -/
def isBlank (s : String) : Bool :=
  s.data.all (fun c => c.isWhitespace)

/-- `saveResult` (App.js lines 128-148): no request is issued when the
trimmed player name is empty; otherwise the body posted to
`/api/results` is built from the current state, with
`matches: matchedPairs.length + 1` (line 139). -/
def saveResult (s : GameState) (playerName : String) : Option ResultBody :=
  if isBlank playerName then none
  else
    some { player_name := playerName
           score := s.score
           tries := s.tries
           «matches» := s.matchedPairs.length + 1 }

end MemoryGame

namespace ResultStore

/-- A JSON scalar as it can appear for a field of the `POST /api/results`
body or in a response object: `null`, a string, or a number.  An absent
field is `Option.none` at the use sites. -/
inductive JVal where
  | jnull
  | jstr (s : String)
  | jnum (n : Int)
deriving DecidableEq, Repr

/-- JavaScript truthiness of an optional field value, as used by
`!player_name` (server.js line 55): absent (`undefined`) and `null` are
falsy, a string is falsy exactly when empty, a number exactly when zero. -/
def jtruthy : Option JVal → Bool
  | none => false
  | some .jnull => false
  | some (.jstr s) => !(s == "")
  | some (.jnum n) => !(n == 0)

/-- The parsed JSON body of a `POST /api/results` request
(`const { player_name, score, tries, matches } = req.body`, server.js
line 53); `none` models an absent field (`undefined`). -/
structure ReqBody where
  player_name : Option JVal
  score : Option JVal
  tries : Option JVal
  «matches» : Option JVal
deriving DecidableEq, Repr

/-- A row of the `game_results` table (server.js lines 23-29): the four
inserted values plus the assigned `id` and the `created_at` default
(`CURRENT_TIMESTAMP`, modelled as a `Nat` clock value). -/
structure StoredRow where
  id : Nat
  player_name : JVal
  score : JVal
  tries : JVal
  «matches» : JVal
  created_at : Nat
deriving DecidableEq, Repr

/-- The database: the `game_results` rows in insertion order, and the next
`AUTOINCREMENT` id. -/
structure Database where
  rows : List StoredRow
  nextId : Nat
deriving DecidableEq, Repr

/-- An HTTP response: status code and JSON object body as ordered
key/value pairs. -/
structure HttpResponse where
  status : Nat
  body : List (String × JVal)
deriving DecidableEq, Repr

/-- `player_name || 'Anonymous'` (server.js lines 62 and 70). -/
def nameOrAnonymous (v : Option JVal) : JVal :=
  if jtruthy v then v.getD (.jstr "Anonymous") else .jstr "Anonymous"

/-- The `POST /api/results` handler (server.js lines 52-78): reject with
400 `{error: 'Missing required fields'}` when `!player_name` or any of
`score`/`tries`/`matches` is `undefined`; otherwise insert one row (the
server clock `now` becomes `created_at`, the next id is assigned) and
respond 200 with the inserted values, the new id and a confirmation
message.  The success path assumes the insert succeeds (the 500 branch is
a database I/O failure, outside the model). -/
def postResults (db : Database) (now : Nat) (req : ReqBody) :
    HttpResponse × Database :=
  if !(jtruthy req.player_name) || req.score == none || req.tries == none
      || req.«matches» == none then
    ({ status := 400, body := [("error", .jstr "Missing required fields")] }, db)
  else
    let row : StoredRow :=
      { id := db.nextId
        player_name := nameOrAnonymous req.player_name
        score := req.score.getD .jnull
        tries := req.tries.getD .jnull
        «matches» := req.«matches».getD .jnull
        created_at := now }
    ({ status := 200
       body := [("id", .jnum row.id),
                ("player_name", row.player_name),
                ("score", row.score),
                ("tries", row.tries),
                ("matches", row.«matches»),
                ("message", .jstr "Result saved successfully")] },
     { rows := db.rows ++ [row], nextId := db.nextId + 1 })

/-- SQLite's ordering of stored values, restricted to the types `JVal` can
hold: `NULL` sorts before every number, numbers by value, every number
before every text, text by string order. -/
def sqliteLe (a b : JVal) : Bool :=
  match a, b with
  | .jnull, _ => true
  | .jnum _, .jnull => false
  | .jnum m, .jnum n => decide (m ≤ n)
  | .jnum _, .jstr _ => true
  | .jstr _, .jnull => false
  | .jstr _, .jnum _ => false
  | .jstr s, .jstr t => decide (s ≤ t)

/-- Row `a` may precede row `b` under `ORDER BY score DESC, tries ASC`
(server.js line 83): strictly greater score, or equal score and tries no
larger. -/
def lbRel (a b : StoredRow) : Prop :=
  (a.score = b.score ∧ sqliteLe a.tries b.tries) ∨
    (a.score ≠ b.score ∧ sqliteLe b.score a.score)

instance : DecidableRel lbRel := fun a b => by
  unfold lbRel; infer_instance

/-- The `GET /api/leaderboard` handler (server.js lines 81-92):
`SELECT * FROM game_results ORDER BY score DESC, tries ASC LIMIT 10`,
modelled as sorting the rows by `lbRel` and taking the first 10. -/
def getLeaderboard (db : Database) : List StoredRow :=
  (List.insertionSort lbRel db.rows).take 10

end ResultStore

namespace MemoryGame

/-- The identity rearrangement: a run of the comparator that leaves the
card order unchanged. -/
def idPerm : List Nat := List.range 16

/-- A rearrangement that swaps the first two cards and fixes the rest. -/
def swapPerm : List Nat := [1, 0, 2, 3, 4, 5, 6, 7, 8, 9, 10, 11, 12, 13, 14, 15]

/-- A completed game's component state: all eight pairs matched. -/
def doneState : GameState :=
  { cards := (List.range pokemonPairs.length).zipWith
      (fun i p => { id := i, pokemonId := p, isFlipped := true, isMatched := true }) pokemonPairs
    flippedCards := []
    matchedPairs := POKEMON_IDS
    score := 80
    tries := 9
    gameOver := true
    showNameInput := true }

/-- The request body `saveResult` builds on `doneState` for player "Ash". -/
def doneBody : ResultBody :=
  { player_name := "Ash", score := 80, tries := 9, «matches» := 9 }

end MemoryGame

namespace MemoryGame

lemma findCard_map (l : List Card) (f : Card → Card) (hf : ∀ c, (f c).id = c.id) (x : Nat) :
    findCard (l.map f) x = (findCard l x).map f := by
  unfold findCard
  induction l with
  | nil => rfl
  | cons c l ih =>
    simp only [List.map_cons, List.find?_cons]
    rw [hf c]
    cases hc : (c.id == x) <;> simp [ih]

lemma findCard_id {l : List Card} {x : Nat} {c : Card} (h : findCard l x = some c) :
    c.id = x := by
  have := List.find?_some h
  simpa using this

lemma state_matched_iff (c : Card) : c.state = CardState.matched ↔ c.isMatched = true := by
  cases hm : c.isMatched <;> cases hfp : c.isFlipped <;> simp [Card.state, hm, hfp]

lemma shuffleBy_perm (perm : List Nat) (h : perm.Perm (List.range 16)) :
    (shuffleBy perm baseCards).Perm baseCards := by
  have h16 : (List.range 16).map (fun i => baseCards.getD i (mkCard 0 0)) = baseCards := by
    decide
  have h2 : (perm.map (fun i => baseCards.getD i (mkCard 0 0))).Perm
      ((List.range 16).map (fun i => baseCards.getD i (mkCard 0 0))) :=
    h.map _
  rw [h16] at h2
  exact h2

/-- C1: for a completed game, the body `saveResult` posts to
`POST /api/results` carries `matches = matchedPairs.length + 1`, one more
than the matched-pair count at send time, alongside the current score,
tries and the entered player name. -/
theorem saveResult_matches_off_by_one (s : GameState) (name : String) (r : ResultBody)
    (_hdone : s.gameOver = true) (hsave : saveResult s name = some r) :
    r.«matches» = s.matchedPairs.length + 1 ∧ r.score = s.score ∧ r.tries = s.tries ∧
      r.player_name = name := by
  unfold saveResult at hsave
  split at hsave
  · cases hsave
  · obtain rfl := Option.some.inj hsave
    exact ⟨rfl, rfl, rfl, rfl⟩

/-- Witness for C1: the completed demo state, player "Ash". -/
theorem saveResult_matches_off_by_one_witness :
    doneState.gameOver = true ∧ saveResult doneState "Ash" = some doneBody ∧
      doneBody.«matches» = doneState.matchedPairs.length + 1 :=
  ⟨rfl, by decide,
    (saveResult_matches_off_by_one doneState "Ash" doneBody rfl (by decide)).1⟩

/-- C3: however the comparator rearranges the cards, a new game has
exactly `2 × 8` cards and every Pokemon id on the board sits on exactly
two cards. -/
theorem newGame_pairs (perm : List Nat) (h : perm.Perm (List.range 16)) :
    (initializeGame perm).cards.length = 2 * POKEMON_IDS.length ∧
      ∀ p ∈ (initializeGame perm).cards.map Card.pokemonId,
        ((initializeGame perm).cards.map Card.pokemonId).count p = 2 := by
  have hp : (initializeGame perm).cards.Perm baseCards := shuffleBy_perm perm h
  constructor
  · rw [hp.length_eq]
    decide
  · intro p hmem
    have hmap : ((initializeGame perm).cards.map Card.pokemonId).Perm
        (baseCards.map Card.pokemonId) := hp.map _
    rw [hmap.count_eq]
    have hpn : p ∈ baseCards.map Card.pokemonId := hmap.mem_iff.mp hmem
    exact (by decide :
      ∀ p ∈ baseCards.map Card.pokemonId, (baseCards.map Card.pokemonId).count p = 2) p hpn

/-- Witness for C3: the identity rearrangement. -/
theorem newGame_pairs_witness :
    idPerm.Perm (List.range 16) ∧
      (initializeGame idPerm).cards.length = 2 * POKEMON_IDS.length :=
  ⟨List.Perm.refl _, (newGame_pairs idPerm (List.Perm.refl _)).1⟩

/-- Counterexample to C7: after the swap rearrangement (a permutation of
the sixteen positions), the card at position 0 has `id = 1`, so it is not
the case that every card's `id` equals its final position. -/
theorem shuffled_id_not_index :
    swapPerm.Perm (List.range 16) ∧
      ¬ ∀ (i : Nat) (c : Card), (initializeGame swapPerm).cards[i]? = some c → c.id = i := by
  refine ⟨by decide, fun h => ?_⟩
  exact absurd (h 0 (mkCard 1 4) (by decide)) (by decide)

/-- C7 amended: the one-time shuffle permutes whole card objects, ids
included: each card's `id` is its position before the shuffle, the ids on
the board are exactly `0..15` in some order, and a card's symbol is still
determined by its `id` (`pokemonPairs[id]`). -/
theorem shuffled_ids_perm (perm : List Nat) (h : perm.Perm (List.range 16)) :
    ((initializeGame perm).cards.map Card.id).Perm (List.range 16) ∧
      ∀ c ∈ (initializeGame perm).cards, c.pokemonId = pokemonPairs.getD c.id 0 := by
  have hp : (initializeGame perm).cards.Perm baseCards := shuffleBy_perm perm h
  constructor
  · have h2 := hp.map Card.id
    have h3 : baseCards.map Card.id = List.range 16 := by decide
    rw [h3] at h2
    exact h2
  · intro c hc
    exact (by decide : ∀ c ∈ baseCards, c.pokemonId = pokemonPairs.getD c.id 0) c
      (hp.mem_iff.mp hc)

/-- Witness for C7's amended statement: the swap rearrangement. -/
theorem shuffled_ids_perm_witness :
    swapPerm.Perm (List.range 16) ∧
      ((initializeGame swapPerm).cards.map Card.id).Perm (List.range 16) :=
  ⟨by decide, (shuffled_ids_perm swapPerm (by decide)).1⟩

end MemoryGame

namespace MemoryGame

/-- A mid-game state with two unresolved revealed cards: the identity
board after clicking cards 0 and 1 (symbols 1 and 4). -/
def twoPendingState : GameState := runOps (initializeGame idPerm) [.click 0, .click 1]

/-- A small mid-game state: the pair of symbol 5 is matched. -/
def matchedPairState : GameState :=
  { cards := [ { id := 0, pokemonId := 5, isFlipped := true, isMatched := true },
               { id := 1, pokemonId := 5, isFlipped := true, isMatched := true },
               { id := 2, pokemonId := 6, isFlipped := false, isMatched := false },
               { id := 3, pokemonId := 6, isFlipped := false, isMatched := false } ],
    flippedCards := [], matchedPairs := [5], score := 10, tries := 1,
    gameOver := false, showNameInput := false }

/-- A small mid-game state: card 0 (symbol 5) revealed and pending. -/
def pendingOneState : GameState :=
  { cards := [ { id := 0, pokemonId := 5, isFlipped := true, isMatched := false },
               { id := 1, pokemonId := 5, isFlipped := false, isMatched := false },
               { id := 2, pokemonId := 6, isFlipped := false, isMatched := false },
               { id := 3, pokemonId := 6, isFlipped := false, isMatched := false } ],
    flippedCards := [0], matchedPairs := [], score := 0, tries := 0,
    gameOver := false, showNameInput := false }

lemma handleCardClick_flipped_le (s : GameState) (cardId : Nat)
    (h : s.flippedCards.length ≤ 2) :
    (handleCardClick s cardId).flippedCards.length ≤ 2 := by
  unfold handleCardClick
  split
  · exact h
  · split
    · exact h
    · rename_i card _ hguard
      have hlen : s.flippedCards.length ≠ 2 := by
        intro hl
        simp [hl] at hguard
      dsimp only
      split
      · split
        · split
          · split <;> simp <;> omega
          · simp; omega
        · simp; omega
      · simp; omega

lemma resolvePending_flipped_le (s : GameState) (h : s.flippedCards.length ≤ 2) :
    (resolvePending s).flippedCards.length ≤ 2 := by
  unfold resolvePending
  split
  · split
    · split <;> simp
    · exact h
  · exact h

lemma runOps_flipped_le (ops : List GameOp) :
    ∀ s : GameState, s.flippedCards.length ≤ 2 →
      (runOps s ops).flippedCards.length ≤ 2 := by
  induction ops with
  | nil => intro s h; exact h
  | cons op ops ih =>
    intro s h
    show (runOps (applyOp s op) ops).flippedCards.length ≤ 2
    apply ih
    cases op with
    | click cid => exact handleCardClick_flipped_le s cid h
    | resolve => exact resolvePending_flipped_le s h

lemma handleCardClick_noop_of_two (s : GameState) (cardId : Nat)
    (h : s.flippedCards.length = 2) : handleCardClick s cardId = s := by
  unfold handleCardClick
  split
  · rfl
  · simp [h]

/-- C4: along every operation sequence from a fresh game, `flippedCards`
never holds more than two ids, and a click made while two cards are
pending returns the state entirely unchanged. -/
theorem pending_at_most_two :
    (∀ (perm : List Nat) (ops : List GameOp),
        (runOps (initializeGame perm) ops).flippedCards.length ≤ 2) ∧
    (∀ (s : GameState) (cardId : Nat), s.flippedCards.length = 2 →
        handleCardClick s cardId = s) := by
  constructor
  · intro perm ops
    apply runOps_flipped_le
    simp [initializeGame]
  · exact handleCardClick_noop_of_two

/-- Witness for C4: two clicks on the identity board leave two pending
cards, and a third click is a no-op. -/
theorem pending_at_most_two_witness :
    (runOps (initializeGame idPerm) [.click 0, .click 1]).flippedCards.length ≤ 2 ∧
      twoPendingState.flippedCards.length = 2 ∧
      handleCardClick twoPendingState 2 = twoPendingState :=
  ⟨pending_at_most_two.1 idPerm [.click 0, .click 1], by decide,
    pending_at_most_two.2 twoPendingState 2 (by decide)⟩

lemma getElem?_map_card (l : List Card) (f : Card → Card) (i : Nat) (c : Card)
    (hc : l[i]? = some c) : (l.map f)[i]? = some (f c) := by
  rw [List.getElem?_map, hc]
  rfl

lemma applyOp_matched_stable (s : GameState) (op : GameOp) (i : Nat) (c : Card)
    (hc : s.cards[i]? = some c) (hm : c.isMatched = true) :
    ∃ c', (applyOp s op).cards[i]? = some c' ∧ c'.id = c.id ∧ c'.pokemonId = c.pokemonId ∧
      c'.isMatched = true := by
  cases op with
  | click cardId =>
    show ∃ c', (handleCardClick s cardId).cards[i]? = some c' ∧ _
    unfold handleCardClick
    dsimp only
    repeat' split
    all_goals
      first
      | exact ⟨c, hc, rfl, rfl, hm⟩
      | exact ⟨_, getElem?_map_card s.cards _ i c hc, by split <;> simp,
          by split <;> simp, by split <;> simp [hm]⟩
  | resolve =>
    show ∃ c', (resolvePending s).cards[i]? = some c' ∧ _
    unfold resolvePending
    repeat' split
    all_goals
      first
      | exact ⟨c, hc, rfl, rfl, hm⟩
      | exact ⟨_, getElem?_map_card s.cards _ i c hc, by split <;> simp,
          by split <;> simp, by split <;> simp [hm]⟩

/-- C5: a card in `matched` state stays in `matched` state across every
operation — clicks, match resolutions and mismatch flip-backs alike — and
keeps its identity. -/
theorem matched_stays_matched (s : GameState) (op : GameOp) (i : Nat) (c : Card)
    (hc : s.cards[i]? = some c) (hm : c.state = CardState.matched) :
    ∃ c', (applyOp s op).cards[i]? = some c' ∧ c'.id = c.id ∧
      c'.state = CardState.matched := by
  obtain ⟨c', h1, h2, _, h4⟩ :=
    applyOp_matched_stable s op i c hc ((state_matched_iff c).mp hm)
  exact ⟨c', h1, h2, (state_matched_iff c').mpr h4⟩

/-- Witness for C5: clicking another card keeps a matched card matched. -/
theorem matched_stays_matched_witness :
    matchedPairState.cards[0]? =
        some { id := 0, pokemonId := 5, isFlipped := true, isMatched := true } ∧
      ∃ c', (applyOp matchedPairState (.click 2)).cards[0]? = some c' ∧ c'.id = 0 ∧
        c'.state = CardState.matched :=
  ⟨by decide, matched_stays_matched matchedPairState (.click 2) 0
    { id := 0, pokemonId := 5, isFlipped := true, isMatched := true } (by decide) (by decide)⟩

lemma handleCardClick_second (s : GameState) (a b : Nat) (ca cb : Card)
    (hflip : s.flippedCards = [a])
    (hfa : findCard s.cards a = some ca)
    (hfb : findCard s.cards b = some cb)
    (hcb1 : cb.isFlipped = false) (hcb2 : cb.isMatched = false)
    (hnp : cb.pokemonId ∉ s.matchedPairs) :
    handleCardClick s b =
      if ca.pokemonId == cb.pokemonId then
        { s with
          cards := s.cards.map (fun c => if c.id == b then { c with isFlipped := true } else c)
          flippedCards := [a, b]
          tries := s.tries + 1
          matchedPairs := s.matchedPairs ++ [ca.pokemonId]
          score := s.score + 10 }
      else
        { s with
          cards := s.cards.map (fun c => if c.id == b then { c with isFlipped := true } else c)
          flippedCards := [a, b]
          tries := s.tries + 1 } := by
  have hcbid : cb.id = b := findCard_id hfb
  have hcontains : s.matchedPairs.contains cb.pokemonId = false := by simpa using hnp
  have hupd : findCard
      (s.cards.map (fun c => if c.id = b then { c with isFlipped := true } else c)) b =
      some { cb with isFlipped := true } := by
    rw [findCard_map _ _ (fun c => by split <;> rfl), hfb]
    simp [hcbid]
  simp [handleCardClick, hfb, hcb1, hcb2, hflip, hcontains, hfa, hupd, hnp]

lemma resolvePending_match (s : GameState) (a b : Nat) (ca cb : Card)
    (hflip : s.flippedCards = [a, b])
    (hfa : findCard s.cards a = some ca)
    (hfb : findCard s.cards b = some cb)
    (hpq : ca.pokemonId = cb.pokemonId) :
    resolvePending s =
      { s with
        cards := s.cards.map (fun c =>
          if c.pokemonId = ca.pokemonId then { c with isMatched := true, isFlipped := true }
          else c)
        flippedCards := []
        gameOver := (s.matchedPairs.length == POKEMON_IDS.length) || s.gameOver
        showNameInput := (s.matchedPairs.length == POKEMON_IDS.length) || s.showNameInput } := by
  simp [resolvePending, hflip, hfa, hfb, hpq]

lemma resolvePending_mismatch (s : GameState) (a b : Nat) (ca cb : Card)
    (hflip : s.flippedCards = [a, b])
    (hfa : findCard s.cards a = some ca)
    (hfb : findCard s.cards b = some cb)
    (hpq : ca.pokemonId ≠ cb.pokemonId) :
    resolvePending s =
      { s with
        cards := s.cards.map (fun c =>
          if c.id = a ∨ c.id = b then { c with isFlipped := false } else c)
        flippedCards := [] } := by
  simp [resolvePending, hflip, hfa, hfb, hpq]

/-- C2: clicking the second card of a pending pair with the same symbol
yields, after the resolution callback: every card of that symbol in
`matched` state, score up by 10, tries up by 1, one symbol appended to
`matchedPairs`, the pending set empty, and `gameOver` set exactly when the
new matched count reaches the pair count. -/
theorem match_resolution (s : GameState) (a b : Nat) (ca cb : Card)
    (hflip : s.flippedCards = [a])
    (hfa : findCard s.cards a = some ca)
    (hfb : findCard s.cards b = some cb)
    (hca1 : ca.isFlipped = true)
    (hcb1 : cb.isFlipped = false) (hcb2 : cb.isMatched = false)
    (hnp : cb.pokemonId ∉ s.matchedPairs)
    (hpq : ca.pokemonId = cb.pokemonId) :
    (resolvePending (handleCardClick s b)).score = s.score + 10 ∧
    (resolvePending (handleCardClick s b)).tries = s.tries + 1 ∧
    (resolvePending (handleCardClick s b)).matchedPairs = s.matchedPairs ++ [ca.pokemonId] ∧
    (resolvePending (handleCardClick s b)).flippedCards = [] ∧
    (∀ c ∈ (resolvePending (handleCardClick s b)).cards,
        c.pokemonId = ca.pokemonId → c.state = CardState.matched) ∧
    (resolvePending (handleCardClick s b)).gameOver =
      ((s.matchedPairs.length + 1 == POKEMON_IDS.length) || s.gameOver) := by
  have hcaid : ca.id = a := findCard_id hfa
  have hcbid : cb.id = b := findCard_id hfb
  have hab : a ≠ b := by
    intro h
    subst h
    rw [hfa] at hfb
    injection hfb with h2
    rw [h2, hcb1] at hca1
    cases hca1
  have h1 := handleCardClick_second s a b ca cb hflip hfa hfb hcb1 hcb2 hnp
  rw [if_pos (by simpa using hpq)] at h1
  have hfa1 : findCard (handleCardClick s b).cards a = some ca := by
    rw [h1]
    show findCard (s.cards.map _) a = some ca
    rw [findCard_map _ _ (fun c => by split <;> rfl), hfa]
    simp [hcaid, hab]
  have hfb1 : findCard (handleCardClick s b).cards b = some { cb with isFlipped := true } := by
    rw [h1]
    show findCard (s.cards.map _) b = some _
    rw [findCard_map _ _ (fun c => by split <;> rfl), hfb]
    simp [hcbid]
  have hflip1 : (handleCardClick s b).flippedCards = [a, b] := by rw [h1]
  have h2 := resolvePending_match (handleCardClick s b) a b ca { cb with isFlipped := true }
    hflip1 hfa1 hfb1 (by simpa using hpq)
  rw [h2]
  refine ⟨by rw [h1], by rw [h1], by rw [h1], rfl, ?_, by simp [h1]⟩
  intro c hc hcp
  rcases List.mem_map.mp hc with ⟨c0, _, rfl⟩
  by_cases hcp0 : c0.pokemonId = ca.pokemonId
  · simp [hcp0, Card.state]
  · simp [hcp0] at hcp

/-- Witness for C2: completing the pair of symbol 5 on the small state. -/
theorem match_resolution_witness :
    pendingOneState.flippedCards = [0] ∧
      (resolvePending (handleCardClick pendingOneState 1)).score = pendingOneState.score + 10 ∧
      (resolvePending (handleCardClick pendingOneState 1)).tries = pendingOneState.tries + 1 := by
  have h := match_resolution pendingOneState 0 1
    { id := 0, pokemonId := 5, isFlipped := true, isMatched := false }
    { id := 1, pokemonId := 5, isFlipped := false, isMatched := false }
    rfl (by decide) (by decide) rfl rfl rfl (by decide) rfl
  exact ⟨rfl, h.1, h.2.1⟩

/-- C6: clicking a second card of a different symbol leaves both cards
`revealed` with tries up by exactly 1 (score and matched pairs unchanged),
and the deferred mismatch flip-back then sets exactly those two cards back
to `hidden`, empties the pending set, and touches no other card. -/
theorem mismatch_resolution (s : GameState) (a b : Nat) (ca cb : Card)
    (hflip : s.flippedCards = [a])
    (hfa : findCard s.cards a = some ca)
    (hfb : findCard s.cards b = some cb)
    (hca1 : ca.isFlipped = true) (hca2 : ca.isMatched = false)
    (hcb1 : cb.isFlipped = false) (hcb2 : cb.isMatched = false)
    (hnp : cb.pokemonId ∉ s.matchedPairs)
    (hpq : ca.pokemonId ≠ cb.pokemonId) :
    (handleCardClick s b).tries = s.tries + 1 ∧
    (handleCardClick s b).score = s.score ∧
    (handleCardClick s b).matchedPairs = s.matchedPairs ∧
    findCard (handleCardClick s b).cards a = some ca ∧
    ca.state = CardState.revealed ∧
    findCard (handleCardClick s b).cards b = some { cb with isFlipped := true } ∧
    Card.state { cb with isFlipped := true } = CardState.revealed ∧
    (resolvePending (handleCardClick s b)).flippedCards = [] ∧
    findCard (resolvePending (handleCardClick s b)).cards a =
      some { ca with isFlipped := false } ∧
    Card.state { ca with isFlipped := false } = CardState.hidden ∧
    findCard (resolvePending (handleCardClick s b)).cards b =
      some { cb with isFlipped := false } ∧
    Card.state { cb with isFlipped := false } = CardState.hidden ∧
    ∀ (i : Nat) (c : Card), s.cards[i]? = some c → c.id ≠ a → c.id ≠ b →
      (resolvePending (handleCardClick s b)).cards[i]? = some c := by
  have hcaid : ca.id = a := findCard_id hfa
  have hcbid : cb.id = b := findCard_id hfb
  have hab : a ≠ b := by
    intro h
    subst h
    rw [hfa] at hfb
    injection hfb with h2
    rw [h2, hcb1] at hca1
    cases hca1
  have h1 := handleCardClick_second s a b ca cb hflip hfa hfb hcb1 hcb2 hnp
  rw [if_neg (by simpa using hpq)] at h1
  have hfa1 : findCard (handleCardClick s b).cards a = some ca := by
    rw [h1]
    show findCard (s.cards.map _) a = some ca
    rw [findCard_map _ _ (fun c => by split <;> rfl), hfa]
    simp [hcaid, hab]
  have hfb1 : findCard (handleCardClick s b).cards b = some { cb with isFlipped := true } := by
    rw [h1]
    show findCard (s.cards.map _) b = some _
    rw [findCard_map _ _ (fun c => by split <;> rfl), hfb]
    simp [hcbid]
  have hflip1 : (handleCardClick s b).flippedCards = [a, b] := by rw [h1]
  have h2 := resolvePending_mismatch (handleCardClick s b) a b ca { cb with isFlipped := true }
    hflip1 hfa1 hfb1 (by simpa using hpq)
  refine ⟨by rw [h1], by rw [h1], by rw [h1], hfa1, by simp [Card.state, hca1, hca2],
    hfb1, by simp [Card.state, hcb2], by rw [h2], ?_, by simp [Card.state, hca2], ?_,
    by simp [Card.state, hcb2], ?_⟩
  · rw [h2]
    show findCard ((handleCardClick s b).cards.map _) a = some _
    rw [findCard_map _ _ (fun c => by split <;> rfl), hfa1]
    simp [hcaid]
  · rw [h2]
    show findCard ((handleCardClick s b).cards.map _) b = some _
    rw [findCard_map _ _ (fun c => by split <;> rfl), hfb1]
    simp [hcbid]
  · intro i c hc hia hib
    rw [h2]
    show ((handleCardClick s b).cards.map _)[i]? = some c
    have hc1 : (handleCardClick s b).cards[i]? = some c := by
      rw [h1]
      show (s.cards.map _)[i]? = some c
      rw [List.getElem?_map, hc]
      simp [hib]
    rw [List.getElem?_map, hc1]
    simp [hia, hib]

/-- Witness for C6: clicking card 2 (symbol 6) against pending card 0
(symbol 5). -/
theorem mismatch_resolution_witness :
    pendingOneState.flippedCards = [0] ∧
      (handleCardClick pendingOneState 2).tries = pendingOneState.tries + 1 ∧
      (resolvePending (handleCardClick pendingOneState 2)).flippedCards = [] := by
  have h := mismatch_resolution pendingOneState 0 2
    { id := 0, pokemonId := 5, isFlipped := true, isMatched := false }
    { id := 2, pokemonId := 6, isFlipped := false, isMatched := false }
    rfl (by decide) (by decide) rfl rfl rfl rfl (by decide) (by decide)
  exact ⟨rfl, h.1, h.2.2.2.2.2.2.2.1⟩

end MemoryGame

namespace ResultStore

/-- An empty database. -/
def emptyDb : Database := { rows := [], nextId := 1 }

/-- A request whose score is present but of the wrong shape: a JSON
string rather than a number. -/
def wrongShapeReq : ReqBody :=
  { player_name := some (.jstr "Bob"), score := some (.jstr "not a number"),
    tries := some (.jnum 3), «matches» := some (.jnum 9) }

/-- A well-formed request. -/
def validReq : ReqBody :=
  { player_name := some (.jstr "Ash"), score := some (.jnum 80),
    tries := some (.jnum 9), «matches» := some (.jnum 9) }

/-- A request with the score field absent. -/
def missingScoreReq : ReqBody :=
  { player_name := some (.jstr "Ash"), score := none,
    tries := some (.jnum 9), «matches» := some (.jnum 9) }

/-- The stored rows of the spec's leaderboard example. -/
def exampleRow1 : StoredRow :=
  { id := 1, player_name := .jstr "p1", score := .jnum 50, tries := .jnum 4,
    «matches» := .jnum 9, created_at := 0 }

def exampleRow2 : StoredRow :=
  { id := 2, player_name := .jstr "p2", score := .jnum 50, tries := .jnum 2,
    «matches» := .jnum 9, created_at := 0 }

def exampleRow3 : StoredRow :=
  { id := 3, player_name := .jstr "p3", score := .jnum 30, tries := .jnum 1,
    «matches» := .jnum 9, created_at := 0 }

def exampleDb : Database := { rows := [exampleRow1, exampleRow2, exampleRow3], nextId := 4 }

lemma sqliteLe_total (a b : JVal) : sqliteLe a b = true ∨ sqliteLe b a = true := by
  cases a <;> cases b <;> simp [sqliteLe] <;>
    first
    | exact Int.le_total _ _
    | exact le_total _ _

lemma sqliteLe_trans {a b c : JVal} (h1 : sqliteLe a b = true) (h2 : sqliteLe b c = true) :
    sqliteLe a c = true := by
  cases a <;> cases b <;> cases c <;> simp_all [sqliteLe] <;>
    first
    | omega
    | exact le_trans h1 h2

lemma sqliteLe_antisymm {a b : JVal} (h1 : sqliteLe a b = true) (h2 : sqliteLe b a = true) :
    a = b := by
  cases a <;> cases b <;>
    simp only [sqliteLe, decide_eq_true_eq] at h1 h2 <;>
    first
    | rfl
    | exact Bool.noConfusion h1
    | exact Bool.noConfusion h2
    | exact congrArg JVal.jnum (le_antisymm h1 h2)
    | exact congrArg JVal.jstr (le_antisymm h1 h2)

instance : IsTotal StoredRow lbRel :=
  ⟨fun a b => by
    unfold lbRel
    by_cases h : a.score = b.score
    · cases sqliteLe_total a.tries b.tries with
      | inl ht => exact Or.inl (Or.inl ⟨h, ht⟩)
      | inr ht => exact Or.inr (Or.inl ⟨h.symm, ht⟩)
    · cases sqliteLe_total a.score b.score with
      | inl hs => exact Or.inr (Or.inr ⟨fun he => h he.symm, hs⟩)
      | inr hs => exact Or.inl (Or.inr ⟨h, hs⟩)⟩

instance : IsTrans StoredRow lbRel :=
  ⟨fun a b c hab hbc => by
    rcases hab with ⟨he1, ht1⟩ | ⟨hn1, hs1⟩ <;> rcases hbc with ⟨he2, ht2⟩ | ⟨hn2, hs2⟩
    · exact Or.inl ⟨he1.trans he2, sqliteLe_trans ht1 ht2⟩
    · exact Or.inr ⟨by rw [he1]; exact hn2, by rw [he1]; exact hs2⟩
    · exact Or.inr ⟨by rw [← he2]; exact hn1, by rw [← he2]; exact hs1⟩
    · refine Or.inr ⟨?_, sqliteLe_trans hs2 hs1⟩
      intro he
      have h3 : sqliteLe a.score b.score = true := by rw [he]; exact hs2
      exact hn1 (sqliteLe_antisymm h3 hs1)⟩

/-- C8: the leaderboard is the first ten rows of a sorting of the stored
rows by score descending with ties broken by tries ascending, and on the
spec's example rows it returns the order 50/2, 50/4, 30/1. -/
theorem leaderboard_ordering :
    (∀ db : Database, ∃ sorted : List StoredRow,
        sorted.Perm db.rows ∧ sorted.Sorted lbRel ∧ getLeaderboard db = sorted.take 10) ∧
    getLeaderboard exampleDb = [exampleRow2, exampleRow1, exampleRow3] := by
  constructor
  · intro db
    exact ⟨List.insertionSort lbRel db.rows, List.perm_insertionSort lbRel db.rows,
      List.sorted_insertionSort lbRel db.rows, rfl⟩
  · decide

/-- Counterexample to C9: a request whose score is present but of the
wrong shape (a JSON string, not a number) is accepted with status 200
rather than rejected with 400, and the success response contains no
`created_at` key. -/
theorem postResults_wrong_shape_accepted :
    (postResults emptyDb 0 wrongShapeReq).1.status = 200 ∧
    ¬(postResults emptyDb 0 wrongShapeReq).1.status = 400 ∧
    "created_at" ∉ (postResults emptyDb 0 wrongShapeReq).1.body.map Prod.fst := by
  decide

/-- C9 amended: `POST /api/results` responds 400 with
`{error: "Missing required fields"}` and leaves the database unchanged
when `player_name` is absent or falsy or any of `score`/`tries`/`matches`
is absent (presence is the only check — no shape validation); otherwise it
appends exactly one row, with server-assigned `id` and `created_at`,
mutating no prior row, and returns the stored values together with the
assigned `id` and a confirmation message (the response omits
`created_at`). -/
theorem postResults_spec (db : Database) (now : Nat) (req : ReqBody) :
    ((jtruthy req.player_name = false ∨ req.score = none ∨ req.tries = none ∨
        req.«matches» = none) →
      postResults db now req =
        ({ status := 400, body := [("error", .jstr "Missing required fields")] }, db)) ∧
    (∀ pv sv tv mv, req.player_name = some pv → req.score = some sv →
      req.tries = some tv → req.«matches» = some mv → jtruthy req.player_name = true →
      postResults db now req =
        ({ status := 200,
           body := [("id", .jnum db.nextId), ("player_name", pv), ("score", sv),
                    ("tries", tv), ("matches", mv),
                    ("message", .jstr "Result saved successfully")] },
         { rows := db.rows ++
             [{ id := db.nextId, player_name := pv, score := sv,
                tries := tv, «matches» := mv, created_at := now }],
           nextId := db.nextId + 1 })) := by
  constructor
  · intro h
    have hcond : (!(jtruthy req.player_name) || req.score == none || req.tries == none
        || req.«matches» == none) = true := by
      rcases h with h | h | h | h <;> simp [h]
    simp [postResults, hcond]
  · intro pv sv tv mv hp hs ht hm htr
    rw [hp] at htr
    have hcond : (!(jtruthy req.player_name) || req.score == none || req.tries == none
        || req.«matches» == none) = false := by
      simp [hp, hs, ht, hm, htr]
    simp [postResults, hcond, nameOrAnonymous, htr, hp, hs, ht, hm]

/-- Witness for C9's amended statement: one rejected and one accepted
request. -/
theorem postResults_spec_witness :
    postResults emptyDb 0 missingScoreReq =
        ({ status := 400, body := [("error", .jstr "Missing required fields")] }, emptyDb) ∧
      (postResults emptyDb 5 validReq).1.status = 200 :=
  ⟨(postResults_spec emptyDb 0 missingScoreReq).1 (Or.inr (Or.inl rfl)),
   by rw [(postResults_spec emptyDb 5 validReq).2 (.jstr "Ash") (.jnum 80) (.jnum 9)
       (.jnum 9) rfl rfl rfl rfl (by decide)]⟩

/-- C10: a request whose `player_name` is present but equal to the empty
string (falsy) is rejected with 400 and nothing is stored, while a request
whose `score`, `tries` and `matches` are all present and equal to 0 is
accepted and stored — those three fields are only compared against
`undefined`. -/
theorem validation_truthiness_asymmetry :
    (∀ (db : Database) (now : Nat) (req : ReqBody),
        req.player_name = some (.jstr "") →
        (postResults db now req).1.status = 400 ∧ (postResults db now req).2 = db) ∧
    (∀ (db : Database) (now : Nat) (req : ReqBody) (pv : JVal),
        req.player_name = some pv → jtruthy req.player_name = true →
        req.score = some (.jnum 0) → req.tries = some (.jnum 0) →
        req.«matches» = some (.jnum 0) →
        (postResults db now req).1.status = 200 ∧
          (postResults db now req).2.rows = db.rows ++
            [{ id := db.nextId, player_name := pv, score := .jnum 0, tries := .jnum 0,
               «matches» := .jnum 0, created_at := now }]) := by
  constructor
  · intro db now req hp
    have hcond : (!(jtruthy req.player_name) || req.score == none || req.tries == none
        || req.«matches» == none) = true := by
      simp [hp, jtruthy]
    constructor <;> simp [postResults, hcond]
  · intro db now req pv hp htr hs ht hm
    rw [hp] at htr
    have hcond : (!(jtruthy req.player_name) || req.score == none || req.tries == none
        || req.«matches» == none) = false := by
      simp [hp, hs, ht, hm, htr]
    constructor <;> simp [postResults, hcond, nameOrAnonymous, htr, hp, hs, ht, hm]

/-- Witness for C10: empty name rejected, all-zero counters accepted. -/
theorem validation_truthiness_asymmetry_witness :
    (postResults emptyDb 0
        { player_name := some (.jstr ""), score := some (.jnum 1), tries := some (.jnum 2),
          «matches» := some (.jnum 3) }).1.status = 400 ∧
      (postResults emptyDb 0
        { player_name := some (.jstr "Ash"), score := some (.jnum 0),
          tries := some (.jnum 0), «matches» := some (.jnum 0) }).1.status = 200 :=
  ⟨(validation_truthiness_asymmetry.1 emptyDb 0 _ rfl).1,
   (validation_truthiness_asymmetry.2 emptyDb 0 _ (.jstr "Ash") rfl (by decide)
      rfl rfl rfl).1⟩

end ResultStore
